import Mathlib

/-!
Shallow embedding of the order-fulfillment and stock logic of the
erp-airos-v1-be backend (Express + Mongoose).

Sources embedded:
  * `src/unnamed/part_000` (Product model): `productSchema.methods.updateStock`,
    `productSchema.methods.isLowStock`.
  * `src/models/Supplier.js`: `supplierSchema.methods.updateBalance`.
  * `src/models/Order.js`: `orderSchema.methods.calculateTotals`,
    `orderSchema.methods.updateStatus`, the `pre('save')` order-number hook,
    and the schema `status` enum.
  * `src/routes/orders.js`: the POST /api/orders, PUT /api/orders/:id/status,
    PUT /api/orders/:id and DELETE /api/orders/:id handlers.

Modelling conventions: JS numbers holding money are embedded as `ℚ`;
quantities and stock counts as `ℤ` (the schemas declare them as integers and
the claims quantify over integer quantities).  The Mongo document store is a
function from a numeric id to `Option` of the document; a saved document is a
functional update of the store.  A Mongoose method that throws is embedded as
`Except`; when it throws before `save()`, the persisted store is unchanged.
-/

namespace ERP

/-- Errors surfaced by the embedded route handlers and model methods. -/
inductive ApiErr where
  | productNotFound (pid : ℕ)
  | insufficientStock (pid : ℕ)
  | orderNotFound
  | notEditable
  | invalidStatus
  | serverError
deriving Repr, DecidableEq

/-- The `Product` document, the fields used by the embedded logic
(`src/unnamed/part_000`, productSchema). `stockQuantity` is declared in the
schema with `min: 0`. -/
structure Product where
  name : String
  sku : String
  price : ℚ
  cost : ℚ
  stockQuantity : ℤ
  minStockLevel : ℤ
  isActive : Bool
deriving Repr, DecidableEq

/-- The error thrown by `updateStock`: `throw new Error('Insufficient stock')`. -/
inductive StockErr where
  | insufficientStock
deriving Repr, DecidableEq

/-- Embeds `productSchema.methods.updateStock(quantity, operation)`
(`src/unnamed/part_000` lines 92-103): `add` increments, `subtract` checks
`stockQuantity >= quantity` and throws `Insufficient stock` otherwise; any
other operation string falls through both branches and just saves the
unchanged document. The thrown error is embedded as `.error`; `.ok` is the
saved document. -/
def Product.updateStock (p : Product) (quantity : ℤ) (operation : String) :
    Except StockErr Product :=
  if operation = "add" then
    .ok { p with stockQuantity := p.stockQuantity + quantity }
  else if operation = "subtract" then
    if p.stockQuantity ≥ quantity then
      .ok { p with stockQuantity := p.stockQuantity - quantity }
    else
      .error .insufficientStock
  else
    .ok p

/-- Embeds `productSchema.methods.isLowStock` (`src/unnamed/part_000` lines 87-89). -/
def Product.isLowStock (p : Product) : Bool :=
  p.stockQuantity ≤ p.minStockLevel

/-- The `Supplier` document, the fields used by `updateBalance`
(`src/models/Supplier.js`). -/
structure Supplier where
  name : String
  code : String
  creditLimit : ℚ
  currentBalance : ℚ
deriving Repr, DecidableEq

/-- Embeds `supplierSchema.methods.updateBalance(amount, operation)`
(`src/models/Supplier.js` lines 125-132): `add` increments the balance,
`subtract` decrements floored at 0 via `Math.max`, any other operation string
saves the unchanged document. The method never throws. -/
def Supplier.updateBalance (s : Supplier) (amount : ℚ) (operation : String) :
    Supplier :=
  if operation = "add" then
    { s with currentBalance := s.currentBalance + amount }
  else if operation = "subtract" then
    { s with currentBalance := max 0 (s.currentBalance - amount) }
  else
    s

/-- The Mongo `products` collection: id to document. -/
def ProductStore : Type := ℕ → Option Product

/-- Persisting a saved product document under its id. -/
def storeSet (store : ProductStore) (pid : ℕ) (p : Product) : ProductStore :=
  fun x => if x = pid then some p else store x

@[simp] theorem storeSet_same (store : ProductStore) (pid : ℕ) (p : Product) :
    storeSet store pid p pid = some p := by
  simp [storeSet]

@[simp] theorem storeSet_other (store : ProductStore) (pid x : ℕ) (p : Product)
    (h : x ≠ pid) : storeSet store pid p x = store x := by
  simp [storeSet, h]

/-- One persisted stock mutation against the store: look the product up and
run `updateStock`; if the method throws, nothing is saved and the store is
unchanged (the mutation happened only on the in-memory document). -/
def applyOp (store : ProductStore) (pid : ℕ) (quantity : ℤ) (operation : String) :
    ProductStore :=
  match store pid with
  | none => store
  | some p =>
    match p.updateStock quantity operation with
    | .ok p' => storeSet store pid p'
    | .error _ => store

/-- A sequence of persisted `updateStock` calls against one product, each
given as (operation string, quantity). -/
def applyOps (store : ProductStore) (pid : ℕ) (ops : List (String × ℤ)) :
    ProductStore :=
  ops.foldl (fun s o => applyOp s pid o.2 o.1) store

/-- One embedded order line (`orderItemSchema` in `src/models/Order.js`):
product reference, quantity, unit price captured at order time, line total. -/
structure OrderItem where
  product : ℕ
  quantity : ℤ
  price : ℚ
  total : ℚ
deriving Repr, DecidableEq

/-- The `Order` document, the fields used by the embedded logic
(`orderSchema` in `src/models/Order.js`). The schema declares
`status` with enum `['pending', 'confirmed', 'processing', 'shipped',
'delivered', 'cancelled']`, default `'pending'`; `tax` and `shipping`
default to 0; `shippedAt`/`deliveredAt` default to null. Timestamps are
embedded as `Option ℕ`. The customer snapshot is reduced to its name; the
other snapshot fields are never consulted by the embedded handlers. -/
structure Order where
  orderNumber : String
  customerName : String
  items : List OrderItem
  subtotal : ℚ
  tax : ℚ
  shipping : ℚ
  total : ℚ
  status : String
  shippedAt : Option ℕ
  deliveredAt : Option ℕ
deriving Repr, DecidableEq

/-- The `status` enum of `orderSchema` (`src/models/Order.js` lines 76-80).
`save()` runs this enum validator; saving a document whose status is outside
the list is rejected with a validation error. -/
def validStatuses : List String :=
  ["pending", "confirmed", "processing", "shipped", "delivered", "cancelled"]

/-- Embeds `orderSchema.methods.calculateTotals` (`src/models/Order.js` lines
134-138): `subtotal = items.reduce((sum, item) => sum + item.total, 0)`,
`total = subtotal + tax + shipping`. -/
def Order.calculateTotals (o : Order) : Order :=
  let subtotal := o.items.foldl (fun sum item => sum + item.total) 0
  { o with subtotal := subtotal, total := subtotal + o.tax + o.shipping }

/-- Embeds `orderSchema.methods.updateStatus(newStatus)` (`src/models/Order.js`
lines 141-151): sets `status = newStatus` unconditionally, sets `shippedAt`
when entering `shipped` and `deliveredAt` when entering `delivered`, then
`save()`. The schema enum validator (see `validStatuses`) makes `save()`
reject any status outside the enum, so the persisted document changes only
for enum values; for others the method fails and nothing is persisted. -/
def Order.updateStatus (o : Order) (newStatus : String) (now : ℕ) :
    Except ApiErr Order :=
  let o' :=
    if newStatus = "shipped" then
      { o with status := newStatus, shippedAt := some now }
    else if newStatus = "delivered" then
      { o with status := newStatus, deliveredAt := some now }
    else
      { o with status := newStatus }
  if newStatus ∈ validStatuses then .ok o' else .error .invalidStatus

/-- A calendar date as the order-number hook reads it from `new Date()`:
`year = getFullYear()`, `month = getMonth() + 1` (so 1-based here),
`day = getDate()`. -/
structure OrdDate where
  year : ℕ
  month : ℕ
  day : ℕ
deriving Repr, DecidableEq

/-- JS `String.prototype.padStart(width, c)`: left-pad with `c` up to
`width`; a string already at least `width` long is returned unchanged. -/
def padStart (s : String) (width : ℕ) (c : Char) : String :=
  if s.length ≥ width then s
  else String.mk (List.replicate (width - s.length) c) ++ s

/-- The `YYYYMMDD` part built by the `pre('save')` hook
(`src/models/Order.js` lines 115-118): year, then month and day each
`padStart(2, '0')`. -/
def formatDate (d : OrdDate) : String :=
  toString d.year ++ padStart (toString d.month) 2 '0'
    ++ padStart (toString d.day) 2 '0'

/-- The order number minted by the `pre('save')` hook
(`src/models/Order.js` line 128) given the count of orders already created
on the same calendar date: `ORD-YYYYMMDD-` followed by
`String(todayOrders + 1).padStart(3, '0')`. -/
def nextOrderNumber (d : OrdDate) (todayOrders : ℕ) : String :=
  "ORD-" ++ formatDate d ++ "-" ++ padStart (toString (todayOrders + 1)) 3 '0'

/-- The `countDocuments` query of the hook (`src/models/Order.js` lines
121-126), over the log of creation dates of existing orders: it counts the
orders whose `createdAt` falls within the calendar day `[startOfDay,
nextDay)`, i.e. the orders created on that same date. -/
def countOrdersOn (log : List OrdDate) (d : OrdDate) : ℕ :=
  (log.filter (fun x => x = d)).length

/-- One sequential order creation as the hook sees it: mint the number from
today's count, then the new order joins the collection (its `createdAt` is
the creation date). Returns the minted number and the grown log. -/
def createOrderNumber (log : List OrdDate) (d : OrdDate) :
    String × List OrdDate :=
  (nextOrderNumber d (countOrdersOn log d), log ++ [d])

/-- A requested line of the POST /api/orders body: product id and quantity. -/
structure ReqItem where
  product : ℕ
  quantity : ℤ
deriving Repr, DecidableEq

/-- The item loop of the POST /api/orders handler (`src/routes/orders.js`
lines 90-114). For each requested item in order: `findById`; 400
`Product not found` if absent; 400 `Insufficient stock` if
`stockQuantity < quantity`; otherwise capture the product's current price,
push the order line, accumulate the subtotal and persist
`updateStock(quantity, 'subtract')`. A failure returns immediately — note
that stock already subtracted for earlier items stays subtracted. The store
result is the persisted products collection after the loop; `updateStock`
throwing (unreachable, its guard repeats the handler's check) would be
caught by the handler's try/catch as a 500. -/
def processItems : ProductStore → List ReqItem → List OrderItem → ℚ →
    ProductStore × Except ApiErr (List OrderItem × ℚ)
  | store, [], orderItems, subtotal => (store, .ok (orderItems, subtotal))
  | store, item :: rest, orderItems, subtotal =>
    match store item.product with
    | none => (store, .error (.productNotFound item.product))
    | some product =>
      if product.stockQuantity < item.quantity then
        (store, .error (.insufficientStock item.product))
      else
        let itemTotal := product.price * (item.quantity : ℚ)
        match product.updateStock item.quantity ("subtract") with
        | .error _ => (store, .error .serverError)
        | .ok product' =>
          processItems (storeSet store item.product product') rest
            (orderItems ++ [⟨item.product, item.quantity, product.price, itemTotal⟩])
            (subtotal + itemTotal)

/-- The POST /api/orders handler (`src/routes/orders.js` lines 75-139) after
the item loop: `total = subtotal + (tax || 0) + (shipping || 0)` and
`Order.create` with status defaulting to `pending` (the order number is
minted by the pre-save hook, modelled by `nextOrderNumber`). `tax` and
`shipping` absent from the body are `none`. -/
def createOrder (store : ProductStore) (items : List ReqItem)
    (tax shipping : Option ℚ) (customerName : String) :
    ProductStore × Except ApiErr Order :=
  match processItems store items [] 0 with
  | (store', .error e) => (store', .error e)
  | (store', .ok (orderItems, subtotal)) =>
    let total := subtotal + tax.getD 0 + shipping.getD 0
    (store', .ok
      { orderNumber := ""
        customerName := customerName
        items := orderItems
        subtotal := subtotal
        tax := tax.getD 0
        shipping := shipping.getD 0
        total := total
        status := "pending"
        shippedAt := none
        deliveredAt := none })

/-- The Mongo `orders` collection: id to document. -/
def OrderStore : Type := ℕ → Option Order

/-- Persisting a saved order document under its id. -/
def orderSet (orders : OrderStore) (oid : ℕ) (o : Order) : OrderStore :=
  fun x => if x = oid then some o else orders x

/-- Embeds `order.deleteOne()`: the document disappears from the collection. -/
def orderDel (orders : OrderStore) (oid : ℕ) : OrderStore :=
  fun x => if x = oid then none else orders x

/-- The persisted state the order routes touch: products and orders. -/
structure World where
  products : ProductStore
  orders : OrderStore

/-- The PUT /api/orders/:id/status handler (`src/routes/orders.js` lines
144-164): `findById`, 404 if absent, otherwise `order.updateStatus(status)`.
When `updateStatus` fails (enum validation at save), nothing is persisted
and the handler's catch answers 500; the persisted order is unchanged. -/
def routeUpdateStatus (w : World) (oid : ℕ) (newStatus : String) (now : ℕ) :
    World × Except ApiErr Order :=
  match w.orders oid with
  | none => (w, .error .orderNotFound)
  | some order =>
    match order.updateStatus newStatus now with
    | .error e => (w, .error e)
    | .ok order' => ({ w with orders := orderSet w.orders oid order' }, .ok order')

/-- The request body of a full order edit (PUT /api/orders/:id), the fields
`Object.assign(order, req.body)` may overwrite; an absent field leaves the
document's value. -/
structure EditBody where
  customerName : Option String
  items : Option (List OrderItem)
  tax : Option ℚ
  shipping : Option ℚ
deriving Repr, DecidableEq

/-- Embeds `Object.assign(order, req.body)` over the embedded fields. -/
def applyAssign (o : Order) (b : EditBody) : Order :=
  { o with
    customerName := b.customerName.getD o.customerName
    items := b.items.getD o.items
    tax := b.tax.getD o.tax
    shipping := b.shipping.getD o.shipping }

/-- The PUT /api/orders/:id handler (`src/routes/orders.js` lines 169-198):
`findById`, 404 if absent; 400 `Cannot update order that is not in pending
status` when `status !== 'pending'`, leaving everything unchanged; otherwise
`Object.assign`, `calculateTotals()` and `save()`. -/
def routeEditOrder (w : World) (oid : ℕ) (b : EditBody) :
    World × Except ApiErr Order :=
  match w.orders oid with
  | none => (w, .error .orderNotFound)
  | some order =>
    if order.status ≠ "pending" then
      (w, .error .notEditable)
    else
      let order' := (applyAssign order b).calculateTotals
      ({ w with orders := orderSet w.orders oid order' }, .ok order')

/-- The stock-restoring loop of the DELETE /api/orders/:id handler
(`src/routes/orders.js` lines 210-216): for each order item, `findById` the
product and, when found, persist `updateStock(quantity, 'add')`; a missing
product is skipped. -/
def restockItems : ProductStore → List OrderItem → ProductStore
  | store, [] => store
  | store, item :: rest =>
    match store item.product with
    | none => restockItems store rest
    | some product =>
      match product.updateStock item.quantity ("add") with
      | .ok product' => restockItems (storeSet store item.product product') rest
      | .error _ => restockItems store rest

/-- The DELETE /api/orders/:id handler (`src/routes/orders.js` lines
203-227): `findById`, 404 if absent; when status is `pending` or
`confirmed`, restore stock for every item first; then `deleteOne()`. -/
def routeDeleteOrder (w : World) (oid : ℕ) : World × Except ApiErr String :=
  match w.orders oid with
  | none => (w, .error .orderNotFound)
  | some order =>
    let products' :=
      if order.status = "pending" ∨ order.status = "confirmed" then
        restockItems w.products order.items
      else
        w.products
    (⟨products', orderDel w.orders oid⟩, .ok ("Order removed"))

/-- Total quantity the items of an order carry for one product id (an order
may reference a product in several lines). -/
def itemsQty (items : List OrderItem) (pid : ℕ) : ℤ :=
  ((items.filter (fun i => i.product = pid)).map (fun i => i.quantity)).sum

/-! Concrete fixtures used by witnesses and counterexamples. -/

/-- A product with on-hand 5, price 10. -/
def prodA : Product :=
  { name := "Widget", sku := "SKU-A", price := 10, cost := 4,
    stockQuantity := 5, minStockLevel := 10, isActive := true }

/-- A product with on-hand 0, price 5. -/
def prodB : Product :=
  { name := "Gadget", sku := "SKU-B", price := 5, cost := 2,
    stockQuantity := 0, minStockLevel := 10, isActive := true }

/-- A product with on-hand 4, price 5. -/
def prodC : Product :=
  { name := "Sprocket", sku := "SKU-C", price := 5, cost := 2,
    stockQuantity := 4, minStockLevel := 10, isActive := true }

/-- Products 1 and 2 in stock: `prodA` and `prodB`. -/
def storeAB : ProductStore :=
  fun x => if x = 1 then some prodA else if x = 2 then some prodB else none

/-- Products 1 and 2 in stock: `prodA` and `prodC`. -/
def storeAC : ProductStore :=
  fun x => if x = 1 then some prodA else if x = 2 then some prodC else none

/-- A supplier fixture. -/
def suppA : Supplier :=
  { name := "Acme", code := "ACM", creditLimit := 100, currentBalance := 20 }

/-- A pending order over product 1 (qty 2) and product 2 (qty 1); the order
number is left empty as `createOrder` leaves it (minted by the pre-save
hook, modelled by `nextOrderNumber`). -/
def ordP : Order :=
  { orderNumber := "", customerName := "Ann",
    items := [⟨1, 2, 10, 20⟩, ⟨2, 1, 5, 5⟩],
    subtotal := 25, tax := 2, shipping := 3, total := 30,
    status := "pending", shippedAt := none, deliveredAt := none }

/-- A shipped order (same lines as `ordP`). -/
def ordS : Order :=
  { ordP with status := "shipped", shippedAt := some 7 }

/-- World with `storeAC` and the pending order `ordP` at id 1. -/
def worldP : World := ⟨storeAC, fun x => if x = 1 then some ordP else none⟩

/-- World with `storeAC` and the shipped order `ordS` at id 1. -/
def worldS : World := ⟨storeAC, fun x => if x = 1 then some ordS else none⟩

end ERP

namespace ERP

/-! Helper lemmas. -/

theorem updateStock_subtract_ok (p : Product) (q : ℤ) (h : q ≤ p.stockQuantity) :
    p.updateStock q ("subtract") =
      .ok { p with stockQuantity := p.stockQuantity - q } := by
  simp [Product.updateStock, h]

theorem updateStock_subtract_fail (p : Product) (q : ℤ)
    (h : p.stockQuantity < q) :
    p.updateStock q ("subtract") = .error .insufficientStock := by
  have h' : ¬ p.stockQuantity ≥ q := by omega
  simp [Product.updateStock, h']

theorem updateStock_add (p : Product) (q : ℤ) :
    p.updateStock q ("add") =
      .ok { p with stockQuantity := p.stockQuantity + q } := by
  simp [Product.updateStock]

/-! ## C3 -/

/-- C3: `updateStock(q, 'subtract')` — the reserve operation — fails with the
insufficient-stock error and leaves the persisted on-hand unchanged whenever
the requested quantity exceeds on-hand, and succeeds, decrementing on-hand by
exactly the quantity, whenever the requested quantity is at most on-hand. -/
theorem c3_reserve (store : ProductStore) (pid : ℕ) (p : Product) (q : ℤ)
    (hp : store pid = some p) :
    (p.stockQuantity < q →
      p.updateStock q ("subtract") = .error .insufficientStock ∧
      applyOp store pid q ("subtract") pid = some p) ∧
    (q ≤ p.stockQuantity →
      p.updateStock q ("subtract") =
        .ok { p with stockQuantity := p.stockQuantity - q } ∧
      applyOp store pid q ("subtract") pid =
        some { p with stockQuantity := p.stockQuantity - q }) := by
  constructor
  · intro h
    have hf := updateStock_subtract_fail p q h
    exact ⟨hf, by simp [applyOp, hp, hf]⟩
  · intro h
    have hs := updateStock_subtract_ok p q h
    exact ⟨hs, by simp [applyOp, hp, hs]⟩

/-- Witness for C3 at product 1 of `storeAB` (on-hand 5): reserving 7 fails
and leaves on-hand 5; reserving 2 persists on-hand 3. -/
theorem c3_reserve_witness :
    storeAB 1 = some prodA ∧
    (prodA.updateStock 7 ("subtract") = .error .insufficientStock ∧
      applyOp storeAB 1 7 ("subtract") 1 = some prodA) ∧
    (prodA.updateStock 2 ("subtract") =
        .ok { prodA with stockQuantity := prodA.stockQuantity - 2 } ∧
      applyOp storeAB 1 2 ("subtract") 1 =
        some { prodA with stockQuantity := prodA.stockQuantity - 2 }) := by
  refine ⟨rfl, ?_, ?_⟩
  · exact (c3_reserve storeAB 1 prodA 7 rfl).1 (by decide)
  · exact (c3_reserve storeAB 1 prodA 2 rfl).2 (by decide)

/-! ## C10 -/

/-- C10: for any operation string other than `add` and `subtract`,
`Product.updateStock` succeeds and returns the document unchanged, and
`Supplier.updateBalance` returns the document unchanged (the method never
throws). -/
theorem c10_unknown_operation (p : Product) (q : ℤ) (s : Supplier) (a : ℚ)
    (op : String) (h1 : op ≠ "add") (h2 : op ≠ "subtract") :
    p.updateStock q op = .ok p ∧ s.updateBalance a op = s := by
  constructor
  · simp [Product.updateStock, h1, h2]
  · simp [Supplier.updateBalance, h1, h2]

/-- Witness for C10 at operation `multiply`. -/
theorem c10_unknown_operation_witness :
    prodA.updateStock 3 ("multiply") = .ok prodA ∧
    suppA.updateBalance 3 ("multiply") = suppA :=
  c10_unknown_operation prodA 3 suppA 3 ("multiply") (by decide) (by decide)

/-! ## C4 -/

theorem applyOp_nonneg (store : ProductStore) (pid : ℕ) (q : ℤ) (op : String)
    (h0 : ∀ p, store pid = some p → 0 ≤ p.stockQuantity) (hq : 0 ≤ q) :
    ∀ p', applyOp store pid q op pid = some p' → 0 ≤ p'.stockQuantity := by
  intro p' h
  cases hsp : store pid with
  | none =>
    simp only [applyOp, hsp] at h
    exact (Option.noConfusion h : False).elim
  | some p =>
    have hp := h0 p hsp
    by_cases hadd : op = "add"
    · subst hadd
      simp only [applyOp, hsp, updateStock_add, storeSet_same,
        Option.some.injEq] at h
      subst h
      change 0 ≤ p.stockQuantity + q
      omega
    · by_cases hsub : op = "subtract"
      · subst hsub
        by_cases hge : q ≤ p.stockQuantity
        · simp only [applyOp, hsp, updateStock_subtract_ok p q hge,
            storeSet_same, Option.some.injEq] at h
          subst h
          change 0 ≤ p.stockQuantity - q
          omega
        · simp only [applyOp, hsp,
            updateStock_subtract_fail p q (by omega),
            Option.some.injEq] at h
          subst h
          exact hp
      · have hok : p.updateStock q op = .ok p := by
          simp [Product.updateStock, hadd, hsub]
        simp only [applyOp, hsp, hok, storeSet_same, Option.some.injEq] at h
        subst h
        exact hp

theorem applyOps_nonneg (pid : ℕ) (ops : List (String × ℤ)) :
    ∀ store : ProductStore,
      (∀ p, store pid = some p → 0 ≤ p.stockQuantity) →
      (∀ o ∈ ops, 0 ≤ o.2) →
      ∀ p', applyOps store pid ops pid = some p' → 0 ≤ p'.stockQuantity := by
  induction ops with
  | nil =>
    intro store h0 _ p' h
    exact h0 p' h
  | cons o rest ih =>
    intro store h0 hq p' h
    rw [applyOps, List.foldl_cons] at h
    exact ih (applyOp store pid o.2 o.1)
      (applyOp_nonneg store pid o.2 o.1 h0 (hq o (by simp)))
      (fun x hx => hq x (by simp [hx])) p' h

/-- C4: starting from a persisted product with non-negative on-hand, after
any prefix of a sequence of persisted `updateStock` calls (reserve =
`subtract`, release = `add`) with non-negative quantities, the persisted
on-hand quantity is still non-negative. -/
theorem c4_stock_nonneg (store : ProductStore) (pid : ℕ)
    (ops : List (String × ℤ))
    (h0 : ∀ p, store pid = some p → 0 ≤ p.stockQuantity)
    (hops : ∀ o ∈ ops, (o.1 = "add" ∨ o.1 = "subtract") ∧ 0 ≤ o.2) :
    ∀ i p', applyOps store pid (ops.take i) pid = some p' →
      0 ≤ p'.stockQuantity := by
  intro i p' h
  exact applyOps_nonneg pid (ops.take i) store h0
    (fun o ho => (hops o (List.take_subset i ops ho)).2) p' h

/-- Witness for C4: product 1 of `storeAB` (on-hand 5) through
reserve 3, release 4, reserve 9 (fails), reserve 6: every prefix leaves a
non-negative persisted on-hand; checked at the full sequence. -/
theorem c4_stock_nonneg_witness :
    (∀ p, storeAB 1 = some p → 0 ≤ p.stockQuantity) ∧
    ∀ p', applyOps storeAB 1
        ([("subtract", 3), ("add", 4), ("subtract", 9), ("subtract", 6)].take 4) 1 =
        some p' → 0 ≤ p'.stockQuantity := by
  constructor
  · intro p hp
    cases hp
    decide
  · exact c4_stock_nonneg storeAB 1
      [("subtract", 3), ("add", 4), ("subtract", 9), ("subtract", 6)]
      (fun p hp => by cases hp; decide)
      (by decide) 4

/-! ## C5 -/

theorem processItems_ok (items : List ReqItem) :
    ∀ store acc sub store' ois sub',
      processItems store items acc sub = (store', .ok (ois, sub')) →
      ∃ tail, ois = acc ++ tail ∧
        sub' = sub + (tail.map (fun i => i.total)).sum ∧
        ∀ i ∈ tail, i.total = i.price * (i.quantity : ℚ) := by
  induction items with
  | nil =>
    intro store acc sub store' ois sub' h
    simp only [processItems, Prod.mk.injEq, Except.ok.injEq] at h
    exact ⟨[], by simp [h.2.1.symm, h.2.2.symm]⟩
  | cons item rest ih =>
    intro store acc sub store' ois sub' h
    cases hsp : store item.product with
    | none =>
      simp only [processItems, hsp, Prod.mk.injEq] at h
      exact (Except.noConfusion h.2 : False).elim
    | some product =>
      by_cases hlt : product.stockQuantity < item.quantity
      · simp only [processItems, hsp, if_pos hlt, Prod.mk.injEq] at h
        exact (Except.noConfusion h.2 : False).elim
      · have hge : item.quantity ≤ product.stockQuantity := by omega
        simp only [processItems, hsp, if_neg hlt,
          updateStock_subtract_ok product item.quantity hge] at h
        obtain ⟨tail, hio, hsub, hprop⟩ :=
          ih (storeSet store item.product
              { product with
                stockQuantity := product.stockQuantity - item.quantity })
            (acc ++ [⟨item.product, item.quantity, product.price,
              product.price * (item.quantity : ℚ)⟩])
            (sub + product.price * (item.quantity : ℚ))
            store' ois sub' h
        refine ⟨⟨item.product, item.quantity, product.price,
          product.price * (item.quantity : ℚ)⟩ :: tail, ?_, ?_, ?_⟩
        · simpa [List.append_assoc] using hio
        · simp only [List.map_cons, List.sum_cons] at hsub ⊢
          rw [hsub]
          ring
        · intro i hi
          rcases List.mem_cons.mp hi with hi | hi
          · subst hi; rfl
          · exact hprop i hi

/-- C5: for every successfully created order, the subtotal is the sum over
the order's lines of the captured unit price times the quantity, and the
total is subtotal + tax + shipping with absent tax/shipping defaulting
to 0. -/
theorem c5_totals (store : ProductStore) (items : List ReqItem)
    (tax shipping : Option ℚ) (cn : String) (o : Order)
    (h : (createOrder store items tax shipping cn).2 = .ok o) :
    o.subtotal = (o.items.map (fun i => i.price * (i.quantity : ℚ))).sum ∧
    o.total = o.subtotal + tax.getD 0 + shipping.getD 0 := by
  unfold createOrder at h
  cases hp : processItems store items [] 0 with
  | mk s2 r =>
    rw [hp] at h
    cases r with
    | error e => exact (Except.noConfusion h : False).elim
    | ok pr =>
      obtain ⟨ois, sub⟩ := pr
      simp only [Except.ok.injEq] at h
      obtain ⟨tail, hio, hsub, hprop⟩ :=
        processItems_ok items store [] 0 s2 ois sub hp
      simp only [List.nil_append] at hio
      subst hio
      subst h
      refine ⟨?_, rfl⟩
      show sub = (ois.map (fun i => i.price * (i.quantity : ℚ))).sum
      rw [hsub, zero_add]
      congr 1
      exact List.map_congr_left hprop

/-- Witness for C5: the two-line order [(product 1, qty 2, price 10),
(product 2, qty 1, price 5)] with tax 2 and shipping 3 yields
subtotal 25 and total 30, matching the proved formulas. -/
theorem c5_totals_witness :
    (createOrder storeAC [⟨1, 2⟩, ⟨2, 1⟩] (some 2) (some 3) ("Ann")).2 =
      .ok ordP ∧
    ordP.subtotal = (ordP.items.map (fun i => i.price * (i.quantity : ℚ))).sum ∧
    ordP.total = ordP.subtotal + (some (2 : ℚ)).getD 0 + (some (3 : ℚ)).getD 0 ∧
    ordP.subtotal = 25 ∧ ordP.total = 30 := by
  have h : (createOrder storeAC [⟨1, 2⟩, ⟨2, 1⟩] (some 2) (some 3) ("Ann")).2 =
      .ok ordP := by
    norm_num +decide [createOrder, processItems, storeAC, prodA, prodC,
      Product.updateStock, storeSet, ordP]
  refine ⟨h, ?_, ?_, by norm_num [ordP], by norm_num [ordP]⟩
  · exact (c5_totals storeAC [⟨1, 2⟩, ⟨2, 1⟩] (some 2) (some 3) ("Ann") ordP h).1
  · exact (c5_totals storeAC [⟨1, 2⟩, ⟨2, 1⟩] (some 2) (some 3) ("Ann") ordP h).2

/-! ## C1 -/

/-- C1 counterexample: creating an order over `storeAB` (product 1 on-hand
5, product 2 on-hand 0) with lines [(1, qty 2), (2, qty 1)] fails on line 2
with insufficient stock, yet product 1's persisted on-hand has moved from 5
to 3 — the decrement of the earlier line is not undone. -/
theorem c1_counterexample :
    (createOrder storeAB [⟨1, 2⟩, ⟨2, 1⟩] none none ("Bob")).2 =
      .error (.insufficientStock 2) ∧
    (storeAB 1).map Product.stockQuantity = some 5 ∧
    ((createOrder storeAB [⟨1, 2⟩, ⟨2, 1⟩] none none ("Bob")).1 1).map
      Product.stockQuantity = some 3 := by
  refine ⟨?_, rfl, ?_⟩ <;>
    norm_num +decide [createOrder, processItems, storeAB, prodA, prodB,
      Product.updateStock, storeSet]

/-- C1 amended: when a later line of the same order attempt fails, the
handler returns the error immediately and the stock decrements already
performed for earlier lines persist — they are not rolled back. For a
two-line request whose first line succeeds and whose second line (for a
different product) fails with insufficient stock, the persisted on-hand of
the first product equals its prior value minus the first line's quantity. -/
theorem c1_no_rollback (store : ProductStore) (i1 i2 : ReqItem)
    (p1 p2 : Product) (tax shipping : Option ℚ) (cn : String)
    (h1 : store i1.product = some p1)
    (hq1 : i1.quantity ≤ p1.stockQuantity)
    (hne : i2.product ≠ i1.product)
    (h2 : store i2.product = some p2)
    (hq2 : p2.stockQuantity < i2.quantity) :
    (createOrder store [i1, i2] tax shipping cn).2 =
      .error (.insufficientStock i2.product) ∧
    (createOrder store [i1, i2] tax shipping cn).1 i1.product =
      some { p1 with stockQuantity := p1.stockQuantity - i1.quantity } := by
  have hnlt : ¬ p1.stockQuantity < i1.quantity := by omega
  have hs2 : storeSet store i1.product
      { p1 with stockQuantity := p1.stockQuantity - i1.quantity }
      i2.product = some p2 := by
    rw [storeSet_other _ _ _ _ hne]
    exact h2
  constructor
  · simp only [createOrder, processItems, h1, if_neg hnlt,
      updateStock_subtract_ok p1 i1.quantity hq1, hs2, if_pos hq2]
  · simp only [createOrder, processItems, h1, if_neg hnlt,
      updateStock_subtract_ok p1 i1.quantity hq1, hs2, if_pos hq2,
      storeSet_same]

/-- Witness for the amended C1 at the concrete two-line request over
`storeAB`. -/
theorem c1_no_rollback_witness :
    (createOrder storeAB [⟨1, 2⟩, ⟨2, 1⟩] none none ("Bob")).2 =
      .error (.insufficientStock 2) ∧
    (createOrder storeAB [⟨1, 2⟩, ⟨2, 1⟩] none none ("Bob")).1 1 =
      some { prodA with stockQuantity := prodA.stockQuantity - 2 } :=
  c1_no_rollback storeAB ⟨1, 2⟩ ⟨2, 1⟩ prodA prodB none none ("Bob")
    rfl (by decide) (by decide) rfl (by decide)

/-! ## C2 -/

/-- C2 counterexample: in `worldP` (pending order 1 reserving 2 units of
product 1; product 1 on-hand 5), transitioning order 1 to `cancelled`
succeeds but product 1's persisted on-hand stays 5 — it is not incremented
by the line quantity 2 as the claim requires. -/
theorem c2_counterexample :
    (routeUpdateStatus worldP 1 ("cancelled") 99).2 =
      .ok { ordP with status := "cancelled" } ∧
    ((routeUpdateStatus worldP 1 ("cancelled") 99).1.products 1).map
      Product.stockQuantity = some 5 ∧
    ¬ ((routeUpdateStatus worldP 1 ("cancelled") 99).1.products 1).map
        Product.stockQuantity = some (5 + 2) := by
  refine ⟨?_, rfl, by decide⟩
  simp [routeUpdateStatus, worldP, Order.updateStatus, validStatuses, ordP]

/-- C2 amended: transitioning an order to `cancelled` (from `pending`,
`confirmed` or any other current status) only rewrites the order's status;
no product's on-hand stock is changed — the `updateStatus` method and the
status route never touch the products collection. Stock is restored only by
the delete route. -/
theorem c2_cancel_no_restock (w : World) (oid : ℕ) (o : Order) (now : ℕ)
    (ho : w.orders oid = some o) :
    (routeUpdateStatus w oid ("cancelled") now).1.products = w.products ∧
    (routeUpdateStatus w oid ("cancelled") now).2 =
      .ok { o with status := "cancelled" } := by
  have hu : o.updateStatus ("cancelled") now =
      .ok { o with status := "cancelled" } := by
    simp [Order.updateStatus, validStatuses]
  constructor <;> simp [routeUpdateStatus, ho, hu]

/-- Witness for the amended C2 at `worldP`. -/
theorem c2_cancel_no_restock_witness :
    (routeUpdateStatus worldP 1 ("cancelled") 99).1.products =
      worldP.products ∧
    (routeUpdateStatus worldP 1 ("cancelled") 99).2 =
      .ok { ordP with status := "cancelled" } :=
  c2_cancel_no_restock worldP 1 ordP 99 rfl

/-! ## C7 -/

theorem orderSet_same (orders : OrderStore) (oid : ℕ) (o : Order) :
    orderSet orders oid o oid = some o := by
  simp [orderSet]

/-- C7: a full order edit succeeds only while the order is `pending`: for
any other status the route fails with the not-editable error and leaves the
whole world unchanged; for a pending order it persists the reassigned,
retotalled order. -/
theorem c7_edit_only_pending (w : World) (oid : ℕ) (o : Order) (b : EditBody)
    (ho : w.orders oid = some o) :
    (o.status ≠ "pending" →
      routeEditOrder w oid b = (w, .error .notEditable)) ∧
    (o.status = "pending" →
      (routeEditOrder w oid b).2 = .ok ((applyAssign o b).calculateTotals) ∧
      (routeEditOrder w oid b).1.orders oid =
        some ((applyAssign o b).calculateTotals)) := by
  constructor
  · intro h
    simp [routeEditOrder, ho, h]
  · intro h
    simp [routeEditOrder, ho, h, orderSet_same]

/-- Witness for C7: editing the shipped order of `worldS` fails with the
not-editable error and changes nothing. -/
theorem c7_edit_only_pending_witness :
    worldS.orders 1 = some ordS ∧
    routeEditOrder worldS 1 ⟨some ("Bob"), none, none, none⟩ =
      (worldS, .error .notEditable) :=
  ⟨rfl, (c7_edit_only_pending worldS 1 ordS ⟨some ("Bob"), none, none, none⟩
    rfl).1 (by decide)⟩

/-! ## C9 -/

/-- C9: for a status string outside the schema enum, `updateStatus` fails
with the invalid-status error and the route persists nothing; entering
`shipped` stamps `shippedAt = now` and entering `delivered` stamps
`deliveredAt = now`. -/
theorem c9_invalid_status (w : World) (oid : ℕ) (o : Order) (s : String)
    (now : ℕ) (ho : w.orders oid = some o) (hs : s ∉ validStatuses) :
    o.updateStatus s now = .error .invalidStatus ∧
    (routeUpdateStatus w oid s now).1 = w ∧
    o.updateStatus ("shipped") now =
      .ok { o with status := "shipped", shippedAt := some now } ∧
    o.updateStatus ("delivered") now =
      .ok { o with status := "delivered", deliveredAt := some now } := by
  have hu : o.updateStatus s now = .error .invalidStatus := by
    simp [Order.updateStatus, hs]
  refine ⟨hu, ?_, ?_, ?_⟩
  · simp [routeUpdateStatus, ho, hu]
  · simp [Order.updateStatus, validStatuses]
  · simp [Order.updateStatus, validStatuses]

/-- Witness for C9 at status `bogus` against `worldP`. -/
theorem c9_invalid_status_witness :
    ordP.updateStatus ("bogus") 5 = .error .invalidStatus ∧
    (routeUpdateStatus worldP 1 ("bogus") 5).1 = worldP ∧
    ordP.updateStatus ("shipped") 5 =
      .ok { ordP with status := "shipped", shippedAt := some 5 } ∧
    ordP.updateStatus ("delivered") 5 =
      .ok { ordP with status := "delivered", deliveredAt := some 5 } :=
  c9_invalid_status worldP 1 ordP ("bogus") 5 rfl (by decide)

/-! ## C8 -/

theorem itemsQty_cons (item : OrderItem) (rest : List OrderItem) (pid : ℕ) :
    itemsQty (item :: rest) pid =
      (if item.product = pid then item.quantity else 0) + itemsQty rest pid := by
  by_cases h : item.product = pid <;>
    simp [itemsQty, List.filter_cons, h]

theorem restockItems_lookup (items : List OrderItem) :
    ∀ store : ProductStore, ∀ pid p, store pid = some p →
      restockItems store items pid =
        some { p with
          stockQuantity := p.stockQuantity + itemsQty items pid } := by
  induction items with
  | nil =>
    intro store pid p hp
    simp only [restockItems, itemsQty, List.filter_nil, List.map_nil,
      List.sum_nil, add_zero]
    rw [hp]
  | cons item rest ih =>
    intro store pid p hp
    by_cases he : item.product = pid
    · subst he
      simp only [restockItems, hp, updateStock_add]
      rw [ih _ _ _ (storeSet_same store item.product _)]
      simp [itemsQty_cons, add_assoc]
    · cases hq : store item.product with
      | none =>
        simp only [restockItems, hq]
        rw [ih store pid p hp, itemsQty_cons, if_neg he, zero_add]
      | some product =>
        simp only [restockItems, hq, updateStock_add]
        rw [ih _ pid p (by
          rw [storeSet_other _ _ _ _ (Ne.symm he)]
          exact hp), itemsQty_cons, if_neg he, zero_add]

/-- C8: deleting an order in status `pending` or `confirmed` first restores,
for every persisted product, the total quantity the order's lines carry for
it, then removes the order record; deleting an order in any other status
removes the record and leaves the products collection untouched. -/
theorem c8_delete_restores (w : World) (oid : ℕ) (o : Order)
    (ho : w.orders oid = some o) :
    ((o.status = "pending" ∨ o.status = "confirmed") →
      (∀ pid p, w.products pid = some p →
        (routeDeleteOrder w oid).1.products pid =
          some { p with
            stockQuantity := p.stockQuantity + itemsQty o.items pid }) ∧
      (routeDeleteOrder w oid).1.orders oid = none ∧
      (routeDeleteOrder w oid).2 = .ok ("Order removed")) ∧
    (¬(o.status = "pending" ∨ o.status = "confirmed") →
      (routeDeleteOrder w oid).1.products = w.products ∧
      (routeDeleteOrder w oid).1.orders oid = none ∧
      (routeDeleteOrder w oid).2 = .ok ("Order removed")) := by
  constructor
  · intro h
    refine ⟨?_, ?_, ?_⟩
    · intro pid p hp
      simp only [routeDeleteOrder, ho, if_pos h]
      exact restockItems_lookup o.items w.products pid p hp
    · simp [routeDeleteOrder, ho, orderDel]
    · simp [routeDeleteOrder, ho]
  · intro h
    refine ⟨?_, ?_, ?_⟩
    · simp [routeDeleteOrder, ho, if_neg h]
    · simp [routeDeleteOrder, ho, orderDel]
    · simp [routeDeleteOrder, ho]

/-- Witness for C8: deleting the pending order of `worldP` restores product
1's on-hand by the order's quantity for it and removes the order. -/
theorem c8_delete_restores_witness :
    (routeDeleteOrder worldP 1).1.products 1 =
      some { prodA with
        stockQuantity := prodA.stockQuantity + itemsQty ordP.items 1 } ∧
    (routeDeleteOrder worldP 1).1.orders 1 = none ∧
    (routeDeleteOrder worldP 1).2 = .ok ("Order removed") := by
  have h := (c8_delete_restores worldP 1 ordP rfl).1 (by exact Or.inl rfl)
  exact ⟨h.1 1 prodA rfl, h.2.1, h.2.2⟩

/-! ## C6 -/

theorem countOrdersOn_append_same (log : List OrdDate) (d : OrdDate) :
    countOrdersOn (log ++ [d]) d = countOrdersOn log d + 1 := by
  simp [countOrdersOn, List.filter_append]

theorem countOrdersOn_append_other (log : List OrdDate) (d d' : OrdDate)
    (h : d' ≠ d) :
    countOrdersOn (log ++ [d]) d' = countOrdersOn log d' := by
  simp [countOrdersOn, List.filter_append, Ne.symm h]

/-- C6: the minted order number is always `ORD-` ++ the formatted calendar
date ++ `-` ++ (count of orders already created on that date, plus one,
zero-padded to 3 digits); three sequential creations on a date with no prior
orders yield suffixes 001, 002, 003, and a subsequent creation on a fresh
different date starts again at 001. -/
theorem c6_sequence (log : List OrdDate) (d d' : OrdDate)
    (hd : countOrdersOn log d = 0) (hd' : countOrdersOn log d' = 0)
    (hne : d' ≠ d) :
    (∀ lg x, (createOrderNumber lg x).1 =
      "ORD-" ++ formatDate x ++ "-" ++
        padStart (toString (countOrdersOn lg x + 1)) 3 '0') ∧
    (createOrderNumber log d).1 = "ORD-" ++ formatDate d ++ "-" ++ "001" ∧
    (createOrderNumber (createOrderNumber log d).2 d).1 =
      "ORD-" ++ formatDate d ++ "-" ++ "002" ∧
    (createOrderNumber (createOrderNumber
        (createOrderNumber log d).2 d).2 d).1 =
      "ORD-" ++ formatDate d ++ "-" ++ "003" ∧
    (createOrderNumber (createOrderNumber (createOrderNumber
        (createOrderNumber log d).2 d).2 d).2 d').1 =
      "ORD-" ++ formatDate d' ++ "-" ++ "001" := by
  have e1 : countOrdersOn (log ++ [d]) d = 1 := by
    rw [countOrdersOn_append_same, hd]
  have e2 : countOrdersOn ((log ++ [d]) ++ [d]) d = 2 := by
    rw [countOrdersOn_append_same, e1]
  have e3 : countOrdersOn (((log ++ [d]) ++ [d]) ++ [d]) d' = 0 := by
    rw [countOrdersOn_append_other _ _ _ hne,
      countOrdersOn_append_other _ _ _ hne,
      countOrdersOn_append_other _ _ _ hne, hd']
  refine ⟨fun lg x => rfl, ?_, ?_, ?_, ?_⟩
  · show nextOrderNumber d (countOrdersOn log d) = _
    rw [hd]
    show ("ORD-") ++ formatDate d ++ "-" ++ padStart (toString (0 + 1)) 3 '0' = _
    congr 1
  · show nextOrderNumber d (countOrdersOn (log ++ [d]) d) = _
    rw [e1]
    show ("ORD-") ++ formatDate d ++ "-" ++ padStart (toString (1 + 1)) 3 '0' = _
    congr 1
  · show nextOrderNumber d (countOrdersOn ((log ++ [d]) ++ [d]) d) = _
    rw [e2]
    show ("ORD-") ++ formatDate d ++ "-" ++ padStart (toString (2 + 1)) 3 '0' = _
    congr 1
  · show nextOrderNumber d'
      (countOrdersOn (((log ++ [d]) ++ [d]) ++ [d]) d') = _
    rw [e3]
    show ("ORD-") ++ formatDate d' ++ "-" ++ padStart (toString (0 + 1)) 3 '0' = _
    congr 1

/-- Date 2024-05-01 as the hook reads it. -/
def dMay1 : OrdDate := ⟨2024, 5, 1⟩

/-- Date 2024-05-02 as the hook reads it. -/
def dMay2 : OrdDate := ⟨2024, 5, 2⟩

/-- Witness for C6: starting from an empty collection, three creations on
2024-05-01 mint ORD-20240501-001, then 002, then 003, and one on
2024-05-02 mints ORD-20240502-001. -/
theorem c6_sequence_witness :
    (createOrderNumber [] dMay1).1 = "ORD-20240501-001" ∧
    (createOrderNumber (createOrderNumber [] dMay1).2 dMay1).1 =
      "ORD-20240501-002" ∧
    (createOrderNumber (createOrderNumber
        (createOrderNumber [] dMay1).2 dMay1).2 dMay1).1 =
      "ORD-20240501-003" ∧
    (createOrderNumber (createOrderNumber (createOrderNumber
        (createOrderNumber [] dMay1).2 dMay1).2 dMay1).2 dMay2).1 =
      "ORD-20240502-001" := by
  have h := c6_sequence [] dMay1 dMay2 rfl rfl (by decide)
  refine ⟨?_, ?_, ?_, ?_⟩
  · rw [h.2.1]; decide
  · rw [h.2.2.1]; decide
  · rw [h.2.2.2.1]; decide
  · rw [h.2.2.2.2]; decide

end ERP
